import Mathlib

/-!
# Verification of the HubSpot CRM proxy server (`src/public/server.js`)

A shallow embedding of the Express request handlers of `server.js`.

JavaScript values are modelled by the inductive type `JsVal`; `||`, truthiness,
member access and `String(...)` coercion are modelled by `jsOr`, `jsTruthy`,
`jsGet` and `jsToString`.  Each Express handler becomes a pure Lean function
from the parsed request body and the outcomes of the external API calls it may
make (HubSpot SDK / OpenAI, modelled by `ExtResult`) to the HTTP response it
sends together with the ordered trace of external calls it performed
(`List CrmCall`).  Sequencing of the awaited external calls is captured by the
order of that trace.
-/

/-- A JavaScript runtime value (the fragment the server manipulates):
`undefined`, `null`, booleans, numbers (integral — the server never computes
with fractions), strings, arrays and plain objects. -/
inductive JsVal where
  | undefined
  | null
  | bool (b : Bool)
  | num (n : Int)
  | str (s : String)
  | arr (elems : List JsVal)
  | obj (fields : List (String × JsVal))
deriving Repr

namespace JsVal

/-- JavaScript truthiness: `undefined`, `null`, `false`, `0`, `""` are falsy;
every array and object (even empty) is truthy. -/
def jsTruthy : JsVal → Bool
  | .undefined => false
  | .null => false
  | .bool b => b
  | .num n => n != 0
  | .str s => s != ""
  | .arr _ => true
  | .obj _ => true

/-- First binding of key `k` in an object's field list, `undefined` if absent. -/
def lookupField : List (String × JsVal) → String → JsVal
  | [], _ => .undefined
  | (k', v) :: rest, k => if k' = k then v else lookupField rest k

/-- Member access `v.k` (and `v?.k`): yields the field of an object, and
`undefined` on every non-object (the handlers only dereference values that are
objects or guarded by `||` / `?.`, so the throwing cases of JavaScript member
access are never reached on the traced paths). -/
def jsGet : JsVal → String → JsVal
  | .obj fields, k => lookupField fields k
  | _, _ => .undefined

/-- JavaScript `a || b`. -/
def jsOr (a b : JsVal) : JsVal :=
  if jsTruthy a then a else b

/-- `Array.isArray`. -/
def isArray : JsVal → Bool
  | .arr _ => true
  | _ => false

/-- `String(v)` coercion.  (For arrays JavaScript's `join` renders `null` and
`undefined` elements as empty strings; that sub-case is irrelevant to the
server, which only coerces the scalar `contactId`.) -/
def jsToString : JsVal → String
  | .undefined => "undefined"
  | .null => "null"
  | .bool b => if b then "true" else "false"
  | .num n => toString n
  | .str s => s
  | .obj _ => "[object Object]"
  | .arr xs => String.intercalate "," (xs.attach.map (fun x => jsToString x.1))
decreasing_by
  have := List.sizeOf_lt_of_mem x.2
  simp only [JsVal.arr.sizeOf_spec]
  omega

/-- Array indexing `v[i]` (`undefined` out of range or on non-arrays). -/
def jsIndex (v : JsVal) (i : Nat) : JsVal :=
  match v with
  | .arr xs => xs.getD i .undefined
  | _ => .undefined

end JsVal

open JsVal

/-- An HTTP response the server sends: status code plus JSON body. -/
structure HttpResponse where
  status : Nat
  body : JsVal
deriving Repr

/-- An error thrown by an external call (HubSpot SDK / OpenAI / a runtime
`TypeError`): optional `statusCode`, optional `response.body` payload, optional
`message`. -/
structure ExtError where
  statusCode : Option Nat
  responseBody : Option JsVal
  message : Option String
deriving Repr

/-- The error object itself as a JavaScript value (used when a handler puts the
whole error into `details`). -/
def ExtError.toJs (e : ExtError) : JsVal :=
  .obj
    ((match e.statusCode with
      | some n => [("statusCode", JsVal.num n)]
      | none => []) ++
     (match e.responseBody with
      | some b => [("response", JsVal.obj [("body", b)])]
      | none => []) ++
     (match e.message with
      | some m => [("message", JsVal.str m)]
      | none => []))

/-- `e?.message` as a JavaScript value. -/
def ExtError.messageJs (e : ExtError) : JsVal :=
  match e.message with
  | some m => .str m
  | none => .undefined

/-- `e?.response?.body` as a JavaScript value. -/
def ExtError.responseBodyJs (e : ExtError) : JsVal :=
  match e.responseBody with
  | some b => b
  | none => .undefined

/-- `e?.statusCode` as a JavaScript value. -/
def ExtError.statusCodeJs (e : ExtError) : JsVal :=
  match e.statusCode with
  | some n => .num n
  | none => .undefined

/-- Outcome of an awaited external API call: resolved value or thrown error. -/
inductive ExtResult where
  | ok (v : JsVal)
  | fail (e : ExtError)
deriving Repr

/-- `server.js` helper `handleHubSpotError(err, res, message)`:
status `err?.statusCode || 500`, body
`{error: message, details: err?.response?.body || err?.message || "Unknown HubSpot error"}`. -/
def handleHubSpotError (err : ExtError) (message : String) : HttpResponse :=
  { status :=
      match err.statusCode with
      | some n => if n = 0 then 500 else n
      | none => 500
    body :=
      .obj
        [("error", .str message),
         ("details",
          jsOr err.responseBodyJs (jsOr err.messageJs (.str "Unknown HubSpot error")))] }

/-- `server.js` helper `extractListResults(apiResponse)`:
`[]` for a falsy response, else a top-level `results` array, else an array
under `body.results`, else `[]`.  Total — it never throws. -/
def extractListResults (apiResponse : JsVal) : JsVal :=
  if !jsTruthy apiResponse then .arr []
  else if isArray (jsGet apiResponse "results") then jsGet apiResponse "results"
  else if jsTruthy (jsGet apiResponse "body") &&
          isArray (jsGet (jsGet apiResponse "body") "results") then
    jsGet (jsGet apiResponse "body") "results"
  else .arr []

/-- Single-item normalization `x.id || x.body?.id` used by the create /
get-by-id handlers. -/
def normId (v : JsVal) : JsVal :=
  jsOr (jsGet v "id") (jsGet (jsGet v "body") "id")

/-- Single-item normalization `x.properties || x.body?.properties`. -/
def normProps (v : JsVal) : JsVal :=
  jsOr (jsGet v "properties") (jsGet (jsGet v "body") "properties")

/-- The canonical `{id, properties}` record built from an external single-item
response. -/
def normItem (v : JsVal) : JsVal :=
  .obj [("id", normId v), ("properties", normProps v)]

/-- One external API call made by a handler, with the arguments the server
passes (fixed paging/property arguments included where the source fixes them). -/
inductive CrmCall where
  | contactsGetPage (limit : Nat) (properties : List String) (archived : Bool)
  | contactsCreate (input : JsVal)
  | dealsGetPage (limit : Nat) (properties : List String) (archived : Bool)
  | dealsCreate (input : JsVal)
  | dealsAssociationsCreate (dealId : JsVal) (toObjectType : String)
      (toObjectId : String) (spec : List (String × Nat))
  | contactsAssociationsGetAll (contactId : JsVal) (kind : String)
  | dealsGetById (dealId : JsVal) (properties : List String)
  | contactsGetById (contactId : JsVal) (properties : List String)
  | aiChatCreate (model : String) (contact : JsVal) (deals : JsVal)
deriving Repr

/-- Is the call an association-create call? -/
def CrmCall.isAssociationCreate : CrmCall → Bool
  | .dealsAssociationsCreate _ _ _ _ => true
  | _ => false

/-- Is the call a deal-fetch (get-by-id) call? -/
def CrmCall.isDealsGetById : CrmCall → Bool
  | .dealsGetById _ _ => true
  | _ => false

/-- The fixed contact property list the server requests. -/
def contactProperties : List String :=
  ["firstname", "lastname", "email", "phone", "address", "jobtitle", "company"]

/-- The fixed deal property list the server requests. -/
def dealProperties' : List String :=
  ["dealname", "amount", "dealstage", "pipeline"]

/-- `GET /api/contacts`: one fixed `getPage` call; `{results}` via
`extractListResults` on success, `handleHubSpotError` on failure. -/
def listContactsHandler (apiResponse : ExtResult) : HttpResponse × List CrmCall :=
  (match apiResponse with
   | .ok v => ⟨200, .obj [("results", extractListResults v)]⟩
   | .fail e => handleHubSpotError e "Error fetching contacts from HubSpot",
   [.contactsGetPage 50 contactProperties false])

/-- `GET /api/deals`: one fixed `getPage` call; `{results}` via
`extractListResults` on success, `handleHubSpotError` on failure. -/
def listDealsHandler (apiResponse : ExtResult) : HttpResponse × List CrmCall :=
  (match apiResponse with
   | .ok v => ⟨200, .obj [("results", extractListResults v)]⟩
   | .fail e => handleHubSpotError e "Error fetching deals from HubSpot",
   [.dealsGetPage 50 dealProperties' false])

/-- `POST /api/contacts`: requires truthy `properties` and `properties.email`
(else 400 before any call); then one create call, 201 with the normalized
`{id, properties}` on success. -/
def postContactsHandler (body : JsVal) (createResp : ExtResult) :
    HttpResponse × List CrmCall :=
  let properties := jsGet (jsOr body (.obj [])) "properties"
  if !jsTruthy properties || !jsTruthy (jsGet properties "email") then
    (⟨400, .obj [("error", .str "properties.email is required to create a contact")]⟩, [])
  else
    (match createResp with
     | .ok v => ⟨201, normItem v⟩
     | .fail e => handleHubSpotError e "Error creating contact in HubSpot",
     [.contactsCreate (.obj [("properties", properties)])])

/-- The association spec `[{associationCategory: "HUBSPOT_DEFINED",
associationTypeId: 3}]` the server always sends. -/
def associationSpec : List (String × Nat) := [("HUBSPOT_DEFINED", 3)]

/-- `POST /api/deals`: requires truthy `dealProperties.dealname` then truthy
`contactId` (two distinct 400s before any call); then creates the deal, then
creates the deal→contact association with `String(contactId)`, then responds
201 with the deal's normalized `{id, properties}` only. -/
def postDealsHandler (body : JsVal) (createResp assocResp : ExtResult) :
    HttpResponse × List CrmCall :=
  let b := jsOr body (.obj [])
  let dealProperties := jsGet b "dealProperties"
  let contactId := jsGet b "contactId"
  if !jsTruthy dealProperties || !jsTruthy (jsGet dealProperties "dealname") then
    (⟨400, .obj [("error", .str "dealProperties.dealname is required")]⟩, [])
  else if !jsTruthy contactId then
    (⟨400, .obj [("error", .str "contactId is required to associate the deal")]⟩, [])
  else
    let createCall := CrmCall.dealsCreate (.obj [("properties", dealProperties)])
    match createResp with
    | .fail e =>
      (handleHubSpotError e "Error creating deal or associating it with contact",
       [createCall])
    | .ok v =>
      let dealId := normId v
      let dealPropertiesCreated := normProps v
      let assocCall :=
        CrmCall.dealsAssociationsCreate dealId "contacts" (jsToString contactId)
          associationSpec
      (match assocResp with
       | .fail e => handleHubSpotError e "Error creating deal or associating it with contact"
       | .ok _ =>
         ⟨201, .obj [("id", dealId), ("properties", dealPropertiesCreated)]⟩,
       [createCall, assocCall])

/-- `(associations.results || []).map(a => a.toObjectId).filter(Boolean)` when
the guarded value is an array. -/
def extractDealIds (xs : List JsVal) : List JsVal :=
  (xs.map (fun a => jsGet a "toObjectId")).filter (fun x => jsTruthy x)

/-- The sequential per-id deal fetch loop shared by the deals-for-contact
handler and the summary helper: fetches ids in order, pushes each normalized
`{id, properties}`, aborts at the first thrown error.  Returns the loop's
outcome and the trace of `getById` calls it made. -/
def fetchDealsLoop (fetch : JsVal → ExtResult) :
    List JsVal → Except ExtError (List JsVal) × List CrmCall
  | [] => (.ok [], [])
  | id :: rest =>
    match fetch id with
    | .fail e => (.error e, [.dealsGetById id dealProperties'])
    | .ok d =>
      let (r, cs) := fetchDealsLoop fetch rest
      (match r with
       | .error e => .error e
       | .ok ds => .ok (normItem d :: ds),
       .dealsGetById id dealProperties' :: cs)

/-- `GET /api/contacts/:contactId/deals`: fetch the contact's `deals`
associations, extract truthy `toObjectId`s, return `{results: []}` immediately
when none remain, else fetch each deal by id sequentially and return the
normalized list; any thrown error goes to `handleHubSpotError`.  (A truthy
non-array `results` makes `.map` throw a `TypeError`, which the catch also
routes to `handleHubSpotError`.) -/
def listDealsForContactHandler (contactId : String) (assocResp : ExtResult)
    (fetch : JsVal → ExtResult) : HttpResponse × List CrmCall :=
  let msg := "Error fetching deals for specific contact from HubSpot"
  let assocCall := CrmCall.contactsAssociationsGetAll (.str contactId) "deals"
  match assocResp with
  | .fail e => (handleHubSpotError e msg, [assocCall])
  | .ok v =>
    match jsOr (jsGet v "results") (.arr []) with
    | .arr xs =>
      let dealIds := extractDealIds xs
      if dealIds.isEmpty then
        (⟨200, .obj [("results", .arr [])]⟩, [assocCall])
      else
        let (r, cs) := fetchDealsLoop fetch dealIds
        (match r with
         | .ok deals => ⟨200, .obj [("results", .arr deals)]⟩
         | .error e => handleHubSpotError e msg,
         assocCall :: cs)
    | _ =>
      (handleHubSpotError ⟨none, none, some "assocResults.map is not a function"⟩ msg,
       [assocCall])

/-- The catch-all of `POST /api/ai/customer-summary`: always 500 with
`{error: "Failed to generate AI insight", details: err?.message || err}`. -/
def aiFailureResponse (e : ExtError) : HttpResponse :=
  ⟨500, .obj [("error", .str "Failed to generate AI insight"),
              ("details", jsOr e.messageJs e.toJs)]⟩

/-- Tail of the summary handler once contact and deals are in hand: invoke the
chat completion (fixed model `gpt-4o`, one user message embedding the
serialized contact and deals), extract `choices[0].message.content`, respond
`{summary}`; a thrown error goes to the catch-all. -/
def finishSummary (contact deals : JsVal) (aiResp : ExtResult)
    (calls : List CrmCall) : HttpResponse × List CrmCall :=
  let aiCall := CrmCall.aiChatCreate "gpt-4o" contact deals
  match aiResp with
  | .fail e => (aiFailureResponse e, calls ++ [aiCall])
  | .ok completion =>
    let summary := jsGet (jsGet (jsIndex (jsGet completion "choices") 0) "message") "content"
    (⟨200, .obj [("summary", summary)]⟩, calls ++ [aiCall])

/-- `POST /api/ai/customer-summary`: 400 when `contactId` is falsy, else 500
when no OpenAI client is configured (both before any external call); else
fetch the contact, fetch its deals by the same association walk as the
deals-for-contact route, and complete; any thrown error yields the catch-all
500 response. -/
def customerSummaryHandler (body : JsVal) (openaiConfigured : Bool)
    (contactResp assocResp : ExtResult) (fetch : JsVal → ExtResult)
    (aiResp : ExtResult) : HttpResponse × List CrmCall :=
  let contactId := jsGet (jsOr body (.obj [])) "contactId"
  if !jsTruthy contactId then
    (⟨400, .obj [("error", .str "contactId is required")]⟩, [])
  else if !openaiConfigured then
    (⟨500, .obj [("error",
        .str "AI not configured. Set OPENAI_API_KEY in your .env to enable this endpoint.")]⟩,
     [])
  else
    let contactCall := CrmCall.contactsGetById contactId contactProperties
    match contactResp with
    | .fail e => (aiFailureResponse e, [contactCall])
    | .ok cv =>
      let contact := normItem cv
      let assocCall := CrmCall.contactsAssociationsGetAll contactId "deals"
      match assocResp with
      | .fail e => (aiFailureResponse e, [contactCall, assocCall])
      | .ok av =>
        match jsOr (jsGet av "results") (.arr []) with
        | .arr xs =>
          let dealIds := extractDealIds xs
          if dealIds.isEmpty then
            finishSummary contact (.arr []) aiResp [contactCall, assocCall]
          else
            let (r, cs) := fetchDealsLoop fetch dealIds
            match r with
            | .error e => (aiFailureResponse e, contactCall :: assocCall :: cs)
            | .ok deals =>
              finishSummary contact (.arr deals) aiResp (contactCall :: assocCall :: cs)
        | _ =>
          (aiFailureResponse ⟨none, none, some "assocResults.map is not a function"⟩,
           [contactCall, assocCall])

/-- The fetch loop on an always-succeeding fetch: one `getById` call per id in
order, one normalized record per id in the same order. -/
theorem fetchDealsLoop_ok (fetchOk : JsVal → JsVal) (ids : List JsVal) :
    fetchDealsLoop (fun i => ExtResult.ok (fetchOk i)) ids =
      (Except.ok (ids.map (fun i => normItem (fetchOk i))),
       ids.map (fun i => CrmCall.dealsGetById i dealProperties')) := by
  induction ids with
  | nil => rfl
  | cons id rest ih => simp [fetchDealsLoop, ih]

/-- The deals-for-contact route on an always-succeeding fetch: 200 with the
normalized deals in association order, and the call trace is the association
walk followed by one `getById` per extracted id, in order. -/
theorem listDealsForContact_ok (contactId : String) (v : JsVal) (xs : List JsVal)
    (fetchOk : JsVal → JsVal)
    (hres : jsOr (jsGet v "results") (JsVal.arr []) = JsVal.arr xs) :
    listDealsForContactHandler contactId (.ok v) (fun i => .ok (fetchOk i)) =
      (⟨200, .obj [("results",
          .arr ((extractDealIds xs).map (fun i => normItem (fetchOk i))))]⟩,
       CrmCall.contactsAssociationsGetAll (.str contactId) "deals" ::
         (extractDealIds xs).map (fun i => CrmCall.dealsGetById i dealProperties')) := by
  rcases he : extractDealIds xs with _ | ⟨d, ds⟩
  · simp [listDealsForContactHandler, hres, he]
  · simp [listDealsForContactHandler, hres, he, fetchDealsLoop_ok fetchOk (d :: ds)]

/-- The create-deal route on valid input and succeeding external calls:
deal-create then one association-create, and a 201 carrying only the
normalized deal. -/
theorem postDeals_ok (body createV w : JsVal)
    (h1 : jsTruthy (jsGet (jsOr body (.obj [])) "dealProperties") = true)
    (h2 : jsTruthy (jsGet (jsGet (jsOr body (.obj [])) "dealProperties") "dealname") = true)
    (h3 : jsTruthy (jsGet (jsOr body (.obj [])) "contactId") = true) :
    postDealsHandler body (.ok createV) (.ok w) =
      (⟨201, .obj [("id", normId createV), ("properties", normProps createV)]⟩,
       [CrmCall.dealsCreate (.obj [("properties", jsGet (jsOr body (.obj [])) "dealProperties")]),
        CrmCall.dealsAssociationsCreate (normId createV) "contacts"
          (jsToString (jsGet (jsOr body (.obj [])) "contactId")) [("HUBSPOT_DEFINED", 3)]]) := by
  simp [postDealsHandler, h1, h2, h3, associationSpec]

/-- **C1**: for a create-deal-with-association request with truthy
`dealProperties.dealname` and `contactId`, after the deal-create succeeds the
handler makes exactly one association-create call, with category
`"HUBSPOT_DEFINED"`, type id `3` and `String(contactId)`, and on success
responds 201 with the created deal's normalized `{id, properties}` only — the
association result `w` does not appear in the response body. -/
theorem C1_associate_once_then_201 (body createV w : JsVal)
    (h1 : jsTruthy (jsGet (jsOr body (.obj [])) "dealProperties") = true)
    (h2 : jsTruthy (jsGet (jsGet (jsOr body (.obj [])) "dealProperties") "dealname") = true)
    (h3 : jsTruthy (jsGet (jsOr body (.obj [])) "contactId") = true) :
    postDealsHandler body (.ok createV) (.ok w) =
      (⟨201, .obj [("id", normId createV), ("properties", normProps createV)]⟩,
       [CrmCall.dealsCreate (.obj [("properties", jsGet (jsOr body (.obj [])) "dealProperties")]),
        CrmCall.dealsAssociationsCreate (normId createV) "contacts"
          (jsToString (jsGet (jsOr body (.obj [])) "contactId")) [("HUBSPOT_DEFINED", 3)]]) ∧
    ((postDealsHandler body (.ok createV) (.ok w)).2.filter
        (fun c => c.isAssociationCreate)).length = 1 := by
  have hmain := postDeals_ok body createV w h1 h2 h3
  exact ⟨hmain, by rw [hmain]; rfl⟩

/-- Witness for C1 at a concrete request and concrete external responses. -/
theorem C1_associate_once_then_201_witness :
    postDealsHandler
        (.obj [("dealProperties", .obj [("dealname", .str "Annual Plan")]),
               ("contactId", .num 42)])
        (.ok (.obj [("id", .str "D1"), ("properties", .obj [("dealname", .str "Annual Plan")])]))
        (.ok (.obj [])) =
      (⟨201, .obj [("id", .str "D1"),
                   ("properties", .obj [("dealname", .str "Annual Plan")])]⟩,
       [CrmCall.dealsCreate (.obj [("properties", .obj [("dealname", .str "Annual Plan")])]),
        CrmCall.dealsAssociationsCreate (.str "D1") "contacts" "42"
          [("HUBSPOT_DEFINED", 3)]]) := by
  have h := C1_associate_once_then_201
      (.obj [("dealProperties", .obj [("dealname", .str "Annual Plan")]),
             ("contactId", .num 42)])
      (.obj [("id", .str "D1"), ("properties", .obj [("dealname", .str "Annual Plan")])])
      (.obj []) rfl rfl rfl
  rw [h.1]
  simp [normId, normProps, jsGet, jsOr, jsTruthy, lookupField, jsToString]
  decide

/-- **C2**: the deals-for-contact handler extracts `toObjectId` from each
association result dropping falsy values; with no ids left it responds
`{results: []}` making no deal-fetch call; otherwise it fetches each deal by
id one at a time — the call trace is one `getById` per id, in the order the
association results were returned — normalizes each to `{id, properties}` and
returns them in that same order. -/
theorem C2_deals_for_contact (contactId : String) (v : JsVal) (xs : List JsVal)
    (fetchOk : JsVal → JsVal)
    (hres : jsOr (jsGet v "results") (JsVal.arr []) = JsVal.arr xs) :
    (extractDealIds xs = [] →
       listDealsForContactHandler contactId (.ok v) (fun i => .ok (fetchOk i)) =
         (⟨200, .obj [("results", .arr [])]⟩,
          [CrmCall.contactsAssociationsGetAll (.str contactId) "deals"])) ∧
    listDealsForContactHandler contactId (.ok v) (fun i => .ok (fetchOk i)) =
      (⟨200, .obj [("results",
          .arr ((extractDealIds xs).map (fun i => normItem (fetchOk i))))]⟩,
       CrmCall.contactsAssociationsGetAll (.str contactId) "deals" ::
         (extractDealIds xs).map (fun i => CrmCall.dealsGetById i dealProperties')) := by
  refine ⟨fun he => ?_, listDealsForContact_ok contactId v xs fetchOk hres⟩
  rw [listDealsForContact_ok contactId v xs fetchOk hres, he]
  rfl

/-- Witness for C2: two association results, one falsy `toObjectId` dropped,
the remaining deal fetched and normalized. -/
theorem C2_deals_for_contact_witness :
    listDealsForContactHandler "C7"
        (.ok (.obj [("results", .arr
          [.obj [("toObjectId", .num 9)], .obj [("toObjectId", .null)]])]))
        (fun i => .ok (.obj [("body", .obj [("id", i), ("properties", .obj [])])])) =
      (⟨200, .obj [("results", .arr
          [.obj [("id", .num 9), ("properties", .obj [])]])]⟩,
       [CrmCall.contactsAssociationsGetAll (.str "C7") "deals",
        CrmCall.dealsGetById (.num 9) dealProperties']) := by
  have h := C2_deals_for_contact "C7"
      (.obj [("results", .arr
        [.obj [("toObjectId", .num 9)], .obj [("toObjectId", .null)]])])
      [.obj [("toObjectId", .num 9)], .obj [("toObjectId", .null)]]
      (fun i => .obj [("body", .obj [("id", i), ("properties", .obj [])])]) rfl
  rw [h.2]
  rfl

/-- `Array.isArray` holds of an array literal. -/
theorem isArray_arr (xs : List JsVal) : isArray (JsVal.arr xs) = true := rfl

/-- **C3**: `extractListResults` returns a top-level `results` array when
present; otherwise a `body.results` array when present; otherwise `[]` — in
that order (the second clause only applies when the first does not), and it is
a total function, so it never throws. -/
theorem C3_extract_list_results (v : JsVal) :
    (∀ xs, jsGet v "results" = JsVal.arr xs → extractListResults v = JsVal.arr xs) ∧
    (isArray (jsGet v "results") = false →
       ∀ ys, jsGet (jsGet v "body") "results" = JsVal.arr ys →
         extractListResults v = JsVal.arr ys) ∧
    (isArray (jsGet v "results") = false →
       isArray (jsGet (jsGet v "body") "results") = false →
       extractListResults v = JsVal.arr []) := by
  refine ⟨fun xs h => ?_, fun hna ys h => ?_, fun h1 h2 => ?_⟩
  · have hv : jsTruthy v = true := by
      cases v <;> simp_all [jsGet, jsTruthy]
    simp [extractListResults, hv, h, isArray_arr]
  · have hb : jsTruthy (jsGet v "body") = true := by
      cases hjb : jsGet v "body" <;> simp_all [jsGet, jsTruthy]
    have hv : jsTruthy v = true := by
      cases v <;> simp_all [jsGet, jsTruthy]
    simp [extractListResults, hv, hna, hb, h, isArray_arr]
  · simp [extractListResults, h1, h2]

/-- Witness for C3: the body-nested shape, with no top-level `results`. -/
theorem C3_extract_list_results_witness :
    extractListResults (.obj [("body", .obj [("results", .arr [.num 1, .num 2])])]) =
      JsVal.arr [.num 1, .num 2] :=
  (C3_extract_list_results
      (.obj [("body", .obj [("results", .arr [.num 1, .num 2])])])).2.1
    rfl [.num 1, .num 2] rfl

/-- **C4 (counterexample)**: the claim that a standalone create-deal operation
requires only `dealProperties.dealname` and returns 201 without any
association is false: the only create-deal handler, given a body carrying a
dealname but no `contactId` (and external create calls that would succeed),
responds 400 — not 201 — and makes no external call at all. -/
theorem C4_no_standalone_create_deal :
    postDealsHandler
        (.obj [("dealProperties", .obj [("dealname", .str "Annual Plan")])])
        (.ok (.obj [("id", .str "D1"), ("properties", .obj [])]))
        (.ok (.obj [])) =
      (⟨400, .obj [("error", .str "contactId is required to associate the deal")]⟩, []) ∧
    (400 : Nat) ≠ 201 := by
  exact ⟨rfl, by decide⟩

/-- **C4 (amended)**: the create-deal operation (`POST /api/deals`) requires
`dealProperties.dealname` (its own 400 when missing) and additionally
`contactId` (a second 400, checked after dealname); on success it returns the
normalized `{id, properties}` at 201 but always performs the association —
there is no association-free create-deal path. -/
theorem C4_create_deal_requires_contact (body cV w : JsVal) (r1 r2 : ExtResult)
    (h1 : jsTruthy (jsGet (jsOr body (.obj [])) "dealProperties") = true)
    (h2 : jsTruthy (jsGet (jsGet (jsOr body (.obj [])) "dealProperties") "dealname") = true) :
    (jsTruthy (jsGet (jsOr body (.obj [])) "contactId") = false →
       postDealsHandler body r1 r2 =
         (⟨400, .obj [("error", .str "contactId is required to associate the deal")]⟩, [])) ∧
    (jsTruthy (jsGet (jsOr body (.obj [])) "contactId") = true →
       (postDealsHandler body (.ok cV) (.ok w)).1 =
           ⟨201, .obj [("id", normId cV), ("properties", normProps cV)]⟩ ∧
       ((postDealsHandler body (.ok cV) (.ok w)).2.filter
           (fun c => c.isAssociationCreate)).length = 1) := by
  constructor
  · intro h3
    simp [postDealsHandler, h1, h2, h3]
  · intro h3
    have hmain := postDeals_ok body cV w h1 h2 h3
    exact ⟨by rw [hmain], by rw [hmain]; rfl⟩

/-- Witness for C4 (amended): missing `contactId` yields the dedicated 400. -/
theorem C4_create_deal_requires_contact_witness :
    postDealsHandler
        (.obj [("dealProperties", .obj [("dealname", .str "Annual Plan")])])
        (.ok (.obj [])) (.ok (.obj [])) =
      (⟨400, .obj [("error", .str "contactId is required to associate the deal")]⟩, []) :=
  (C4_create_deal_requires_contact
      (.obj [("dealProperties", .obj [("dealname", .str "Annual Plan")])])
      (.obj []) (.obj []) (.ok (.obj [])) (.ok (.obj [])) rfl rfl).1 rfl

/-- **C5 (counterexample)**: the claim that every handler surfaces the
external error's status code is false: the customer-summary handler, when the
contact fetch fails with an external error carrying `statusCode: 404`,
responds 500, not 404. -/
theorem C5_summary_ignores_status_code :
    (customerSummaryHandler (.obj [("contactId", .str "C1")]) true
        (.fail ⟨some 404, none, some "contact not found"⟩) (.ok (.obj []))
        (fun _ => .ok (.obj [])) (.ok (.obj []))).1.status = 500 ∧
    (customerSummaryHandler (.obj [("contactId", .str "C1")]) true
        (.fail ⟨some 404, none, some "contact not found"⟩) (.ok (.obj []))
        (fun _ => .ok (.obj [])) (.ok (.obj []))).1.status ≠ 404 := by
  exact ⟨rfl, by decide⟩

/-- **C5 (amended)**: whichever of its external calls fails — the page fetch,
the create, the association-create, the association walk, or a per-deal
get-by-id — each of the five CRM proxy handlers routes the failure through
`handleHubSpotError`: status from the error's `statusCode` when truthy, else
500, body `{error: <context>, details: <payload ‖ message ‖ fallback>}`.  The
customer-summary handler instead always responds 500 with
`{error: "Failed to generate AI insight", details: <message ‖ error>}`,
ignoring any status code the external error carries, whether the contact
fetch, the association walk, a per-deal fetch or the completion call threw. -/
theorem C5_error_responses (e : ExtError) (msg : String) (body : JsVal)
    (v cv av : JsVal) (items : List JsVal) (r2 aiResp : ExtResult)
    (contactId : String) (fetch : JsVal → ExtResult) (fetchOk : JsVal → JsVal) :
    (handleHubSpotError e msg).status =
      (match e.statusCode with
       | some n => if n = 0 then 500 else n
       | none => 500) ∧
    (handleHubSpotError e msg).body =
      .obj [("error", .str msg),
            ("details",
             jsOr e.responseBodyJs (jsOr e.messageJs (.str "Unknown HubSpot error")))] ∧
    (listContactsHandler (.fail e)).1 =
      handleHubSpotError e "Error fetching contacts from HubSpot" ∧
    (listDealsHandler (.fail e)).1 =
      handleHubSpotError e "Error fetching deals from HubSpot" ∧
    (jsTruthy (jsGet (jsGet (jsOr body (.obj [])) "properties") "email") = true →
       (postContactsHandler body (.fail e)).1 =
         handleHubSpotError e "Error creating contact in HubSpot") ∧
    (jsTruthy (jsGet (jsGet (jsOr body (.obj [])) "dealProperties") "dealname") = true →
     jsTruthy (jsGet (jsOr body (.obj [])) "contactId") = true →
       (postDealsHandler body (.fail e) r2).1 =
         handleHubSpotError e "Error creating deal or associating it with contact") ∧
    (jsTruthy (jsGet (jsGet (jsOr body (.obj [])) "dealProperties") "dealname") = true →
     jsTruthy (jsGet (jsOr body (.obj [])) "contactId") = true →
       (postDealsHandler body (.ok v) (.fail e)).1 =
         handleHubSpotError e "Error creating deal or associating it with contact") ∧
    (listDealsForContactHandler contactId (.fail e) fetch).1 =
      handleHubSpotError e "Error fetching deals for specific contact from HubSpot" ∧
    (jsOr (jsGet av "results") (.arr []) = .arr items →
     extractDealIds items ≠ [] →
     (fetchDealsLoop fetch (extractDealIds items)).1 = .error e →
       (listDealsForContactHandler contactId (.ok av) fetch).1 =
         handleHubSpotError e "Error fetching deals for specific contact from HubSpot") ∧
    aiFailureResponse e =
      ⟨500, .obj [("error", .str "Failed to generate AI insight"),
                  ("details", jsOr e.messageJs e.toJs)]⟩ ∧
    (jsTruthy (jsGet (jsOr body (.obj [])) "contactId") = true →
       (customerSummaryHandler body true (.fail e) r2 fetch aiResp).1 =
         aiFailureResponse e) ∧
    (jsTruthy (jsGet (jsOr body (.obj [])) "contactId") = true →
       (customerSummaryHandler body true (.ok cv) (.fail e) fetch aiResp).1 =
         aiFailureResponse e) ∧
    (jsTruthy (jsGet (jsOr body (.obj [])) "contactId") = true →
     jsOr (jsGet av "results") (.arr []) = .arr items →
     extractDealIds items ≠ [] →
     (fetchDealsLoop fetch (extractDealIds items)).1 = .error e →
       (customerSummaryHandler body true (.ok cv) (.ok av) fetch aiResp).1 =
         aiFailureResponse e) ∧
    (jsTruthy (jsGet (jsOr body (.obj [])) "contactId") = true →
     jsOr (jsGet av "results") (.arr []) = .arr items →
       (customerSummaryHandler body true (.ok cv) (.ok av)
           (fun i => .ok (fetchOk i)) (.fail e)).1 =
         aiFailureResponse e) := by
  refine ⟨rfl, rfl, rfl, rfl, fun hEmail => ?_, fun hdl hcid => ?_,
          fun hdl hcid => ?_, rfl, fun hres hne hloop => ?_, rfl,
          fun hcid => ?_, fun hcid => ?_, fun hcid hres hne hloop => ?_,
          fun hcid hres => ?_⟩
  · have hp : jsTruthy (jsGet (jsOr body (.obj [])) "properties") = true := by
      cases hv : jsGet (jsOr body (.obj [])) "properties" <;>
        simp_all [jsGet, jsTruthy]
    simp [postContactsHandler, hp, hEmail]
  · have hdp : jsTruthy (jsGet (jsOr body (.obj [])) "dealProperties") = true := by
      cases hv : jsGet (jsOr body (.obj [])) "dealProperties" <;>
        simp_all [jsGet, jsTruthy]
    simp [postDealsHandler, hdp, hdl, hcid]
  · have hdp : jsTruthy (jsGet (jsOr body (.obj [])) "dealProperties") = true := by
      cases hv : jsGet (jsOr body (.obj [])) "dealProperties" <;>
        simp_all [jsGet, jsTruthy]
    simp [postDealsHandler, hdp, hdl, hcid]
  · rcases he : extractDealIds items with _ | ⟨d, ds⟩
    · exact absurd he hne
    · rw [he] at hloop
      rcases hl : fetchDealsLoop fetch (d :: ds) with ⟨r, cs⟩
      rw [hl] at hloop
      simp only at hloop
      subst hloop
      simp [listDealsForContactHandler, hres, he, hl]
  · simp [customerSummaryHandler, hcid]
  · simp [customerSummaryHandler, hcid]
  · rcases he : extractDealIds items with _ | ⟨d, ds⟩
    · exact absurd he hne
    · rw [he] at hloop
      rcases hl : fetchDealsLoop fetch (d :: ds) with ⟨r, cs⟩
      rw [hl] at hloop
      simp only at hloop
      subst hloop
      simp [customerSummaryHandler, hcid, hres, he, hl]
  · rcases he : extractDealIds items with _ | ⟨d, ds⟩
    · simp [customerSummaryHandler, hcid, hres, he, finishSummary]
    · simp [customerSummaryHandler, hcid, hres, he, finishSummary,
            fetchDealsLoop_ok fetchOk (d :: ds)]

/-- Witness for C5 (amended): the summary handler turns a 429-carrying
completion failure — reached after the contact fetch and association walk
succeeded — into a plain 500 with the catch-all body. -/
theorem C5_error_responses_witness :
    (customerSummaryHandler (.obj [("contactId", .str "C1")]) true
        (.ok (.obj [("id", .str "C1"), ("properties", .obj [])]))
        (.ok (.obj [("results", .arr [.obj [("toObjectId", .num 9)]])]))
        (fun i => .ok i) (.fail ⟨some 429, none, some "rate limited"⟩)).1 =
      ⟨500, .obj [("error", .str "Failed to generate AI insight"),
                  ("details", .str "rate limited")]⟩ := by
  have h := C5_error_responses ⟨some 429, none, some "rate limited"⟩ "m"
      (.obj [("contactId", .str "C1")]) (.obj [])
      (.obj [("id", .str "C1"), ("properties", .obj [])])
      (.obj [("results", .arr [.obj [("toObjectId", .num 9)]])])
      [.obj [("toObjectId", .num 9)]] (.ok (.obj [])) (.ok (.obj []))
      "X" (fun _ => .ok (.obj [])) (fun i => i)
  exact (h.2.2.2.2.2.2.2.2.2.2.2.2.2 rfl rfl).trans rfl

/-- **C6**: on a customer-summary request carrying a truthy `contactId`, when
no summarization client is configured the handler responds 500 with the
configuration-error message and its external-call trace is empty — the
configuration check precedes the contact and deals fetches. -/
theorem C6_config_check_before_crm (body : JsVal)
    (contactResp assocResp aiResp : ExtResult) (fetch : JsVal → ExtResult)
    (h : jsTruthy (jsGet (jsOr body (.obj [])) "contactId") = true) :
    customerSummaryHandler body false contactResp assocResp fetch aiResp =
      (⟨500, .obj [("error",
          .str "AI not configured. Set OPENAI_API_KEY in your .env to enable this endpoint.")]⟩,
       []) := by
  simp [customerSummaryHandler, h]

/-- Witness for C6 at a concrete request. -/
theorem C6_config_check_before_crm_witness :
    customerSummaryHandler (.obj [("contactId", .str "C1")]) false
        (.ok (.obj [])) (.ok (.obj [])) (fun _ => .ok (.obj [])) (.ok (.obj [])) =
      (⟨500, .obj [("error",
          .str "AI not configured. Set OPENAI_API_KEY in your .env to enable this endpoint.")]⟩,
       []) :=
  C6_config_check_before_crm (.obj [("contactId", .str "C1")])
    (.ok (.obj [])) (.ok (.obj [])) (.ok (.obj [])) (fun _ => .ok (.obj [])) rfl

/-- **C7**: on a create-deal request, a falsy `dealProperties` /
`dealProperties.dealname` yields its own 400 (checked first — it fires
whatever `contactId` is), a missing `contactId` yields a distinct 400, and in
both cases the external-call trace is empty. -/
theorem C7_deal_validation_400s (body : JsVal) (r1 r2 : ExtResult) :
    ((jsTruthy (jsGet (jsOr body (.obj [])) "dealProperties") = false ∨
      jsTruthy (jsGet (jsGet (jsOr body (.obj [])) "dealProperties") "dealname") = false) →
       postDealsHandler body r1 r2 =
         (⟨400, .obj [("error", .str "dealProperties.dealname is required")]⟩, [])) ∧
    (jsTruthy (jsGet (jsOr body (.obj [])) "dealProperties") = true →
     jsTruthy (jsGet (jsGet (jsOr body (.obj [])) "dealProperties") "dealname") = true →
     jsTruthy (jsGet (jsOr body (.obj [])) "contactId") = false →
       postDealsHandler body r1 r2 =
         (⟨400, .obj [("error", .str "contactId is required to associate the deal")]⟩, [])) ∧
    (JsVal.obj [("error", .str "dealProperties.dealname is required")] ≠
       JsVal.obj [("error", .str "contactId is required to associate the deal")]) := by
  refine ⟨fun h => ?_, fun h1 h2 h3 => ?_, by simp⟩
  · rcases h with h | h <;> simp [postDealsHandler, h]
  · simp [postDealsHandler, h1, h2, h3]

/-- Witness for C7: both fields missing gives the dealname 400 (checked
first). -/
theorem C7_deal_validation_400s_witness :
    postDealsHandler (.obj []) (.ok (.obj [])) (.ok (.obj [])) =
      (⟨400, .obj [("error", .str "dealProperties.dealname is required")]⟩, []) :=
  (C7_deal_validation_400s (.obj []) (.ok (.obj [])) (.ok (.obj []))).1 (Or.inl rfl)

/-- **C8 (counterexample)**: the claim that every record returned by any
endpoint is canonical regardless of top-level vs body-wrapped external shape
is false: the list-contacts endpoint returns external result items unchanged,
so a body-wrapped item comes back verbatim, with no top-level `id` field. -/
theorem C8_list_endpoint_not_canonical :
    listContactsHandler (.ok (.obj [("results", .arr
        [.obj [("body", .obj [("id", .str "1"),
                              ("properties", .obj [("email", .str "a@b.c")])])]])])) =
      (⟨200, .obj [("results", .arr
        [.obj [("body", .obj [("id", .str "1"),
                              ("properties", .obj [("email", .str "a@b.c")])])]])]⟩,
       [CrmCall.contactsGetPage 50 contactProperties false]) ∧
    jsGet (.obj [("body", .obj [("id", .str "1"),
                                ("properties", .obj [("email", .str "a@b.c")])])]) "id" =
      JsVal.undefined :=
  ⟨rfl, rfl⟩

/-- **C8 (amended)**: the single-item paths — create contact, create deal with
association, and each deal in list-deals-for-contact — return records
normalized to `{id, properties}`, each field taken from the top level when
truthy and otherwise from the `body` wrapper; the list-contacts and
list-deals endpoints both return the external result items unchanged, so
their records are canonical only when the external client already returns
them in canonical shape. -/
theorem C8_normalization_scope (x body v w av lv dv : JsVal) (items : List JsVal)
    (contactId : String) (fetchOk : JsVal → JsVal) :
    (jsTruthy (jsGet x "id") = true → normId x = jsGet x "id") ∧
    (jsTruthy (jsGet x "id") = false → normId x = jsGet (jsGet x "body") "id") ∧
    (jsTruthy (jsGet x "properties") = true → normProps x = jsGet x "properties") ∧
    (jsTruthy (jsGet x "properties") = false →
       normProps x = jsGet (jsGet x "body") "properties") ∧
    (jsTruthy (jsGet (jsGet (jsOr body (.obj [])) "properties") "email") = true →
       (postContactsHandler body (.ok v)).1 = ⟨201, normItem v⟩) ∧
    (jsTruthy (jsGet (jsGet (jsOr body (.obj [])) "dealProperties") "dealname") = true →
     jsTruthy (jsGet (jsOr body (.obj [])) "contactId") = true →
       (postDealsHandler body (.ok v) (.ok w)).1 = ⟨201, normItem v⟩) ∧
    (jsOr (jsGet av "results") (.arr []) = .arr items →
       (listDealsForContactHandler contactId (.ok av) (fun i => .ok (fetchOk i))).1 =
         ⟨200, .obj [("results",
             .arr ((extractDealIds items).map (fun i => normItem (fetchOk i))))]⟩) ∧
    (jsGet lv "results" = .arr items →
       (listContactsHandler (.ok lv)).1 = ⟨200, .obj [("results", .arr items)]⟩) ∧
    (jsGet dv "results" = .arr items →
       (listDealsHandler (.ok dv)).1 = ⟨200, .obj [("results", .arr items)]⟩) := by
  refine ⟨fun h => by simp [normId, jsOr, h], fun h => by simp [normId, jsOr, h],
          fun h => by simp [normProps, jsOr, h], fun h => by simp [normProps, jsOr, h],
          fun hEmail => ?_, fun hdl hcid => ?_, fun hres => ?_, fun hlist => ?_,
          fun hlist => ?_⟩
  · have hp : jsTruthy (jsGet (jsOr body (.obj [])) "properties") = true := by
      cases hv : jsGet (jsOr body (.obj [])) "properties" <;>
        simp_all [jsGet, jsTruthy]
    simp [postContactsHandler, hp, hEmail, normItem]
  · have hdp : jsTruthy (jsGet (jsOr body (.obj [])) "dealProperties") = true := by
      cases hv : jsGet (jsOr body (.obj [])) "dealProperties" <;>
        simp_all [jsGet, jsTruthy]
    rw [postDeals_ok body v w hdp hdl hcid]
    simp [normItem]
  · rw [listDealsForContact_ok contactId av items fetchOk hres]
  · have hv : jsTruthy lv = true := by
      cases lv <;> simp_all [jsGet, jsTruthy]
    simp [listContactsHandler, extractListResults, hv, hlist, isArray_arr]
  · have hv : jsTruthy dv = true := by
      cases dv <;> simp_all [jsGet, jsTruthy]
    simp [listDealsHandler, extractListResults, hv, hlist, isArray_arr]

/-- Witness for C8 (amended): create-contact normalizes a body-wrapped create
response into the canonical record. -/
theorem C8_normalization_scope_witness :
    (postContactsHandler (.obj [("properties", .obj [("email", .str "a@b.c")])])
        (.ok (.obj [("body", .obj [("id", .str "7"),
                                   ("properties", .obj [("email", .str "a@b.c")])])]))).1 =
      ⟨201, .obj [("id", .str "7"),
                  ("properties", .obj [("email", .str "a@b.c")])]⟩ := by
  have h := C8_normalization_scope (.obj [])
      (.obj [("properties", .obj [("email", .str "a@b.c")])])
      (.obj [("body", .obj [("id", .str "7"),
                            ("properties", .obj [("email", .str "a@b.c")])])])
      (.obj []) (.obj []) (.obj []) (.obj []) [] "X" (fun i => i)
  rw [h.2.2.2.2.1 rfl]
  rfl

/-- **C9**: in the customer-summary handler the `contactId` presence check
comes first: a request with falsy `contactId` gets the 400 validation
response — not the 500 configuration response — for either configuration
state, with no external call. -/
theorem C9_contact_id_before_config (body : JsVal) (conf : Bool)
    (contactResp assocResp aiResp : ExtResult) (fetch : JsVal → ExtResult)
    (h : jsTruthy (jsGet (jsOr body (.obj [])) "contactId") = false) :
    customerSummaryHandler body conf contactResp assocResp fetch aiResp =
      (⟨400, .obj [("error", .str "contactId is required")]⟩, []) := by
  simp [customerSummaryHandler, h]

/-- Witness for C9: no `contactId` and no summarizer configured still yields
the 400. -/
theorem C9_contact_id_before_config_witness :
    customerSummaryHandler (.obj []) false (.ok (.obj [])) (.ok (.obj []))
        (fun _ => .ok (.obj [])) (.ok (.obj [])) =
      (⟨400, .obj [("error", .str "contactId is required")]⟩, []) :=
  C9_contact_id_before_config (.obj []) false (.ok (.obj [])) (.ok (.obj []))
    (.ok (.obj [])) (fun _ => .ok (.obj [])) rfl

/-- **C10**: required-field validation is truthiness-based: any falsy value
for `properties.email`, `dealProperties.dealname` or `contactId` (absent
field, empty string, `null`, `0`, …) produces the very same 400 response as
the absent field — each branch below fixes one concrete response independent
of which falsy value was supplied — with no external call made. -/
theorem C10_truthiness_validation (body : JsVal)
    (r r1 r2 contactResp assocResp aiResp : ExtResult) (fetch : JsVal → ExtResult) :
    (jsTruthy (jsGet (jsGet (jsOr body (.obj [])) "properties") "email") = false →
       postContactsHandler body r =
         (⟨400, .obj [("error", .str "properties.email is required to create a contact")]⟩,
          [])) ∧
    (jsTruthy (jsGet (jsGet (jsOr body (.obj [])) "dealProperties") "dealname") = false →
       postDealsHandler body r1 r2 =
         (⟨400, .obj [("error", .str "dealProperties.dealname is required")]⟩, [])) ∧
    (jsTruthy (jsGet (jsOr body (.obj [])) "dealProperties") = true →
     jsTruthy (jsGet (jsGet (jsOr body (.obj [])) "dealProperties") "dealname") = true →
     jsTruthy (jsGet (jsOr body (.obj [])) "contactId") = false →
       postDealsHandler body r1 r2 =
         (⟨400, .obj [("error", .str "contactId is required to associate the deal")]⟩, [])) ∧
    (jsTruthy (jsGet (jsOr body (.obj [])) "contactId") = false →
       customerSummaryHandler body true contactResp assocResp fetch aiResp =
         (⟨400, .obj [("error", .str "contactId is required")]⟩, [])) := by
  refine ⟨fun h => ?_, fun h => ?_, fun h1 h2 h3 => ?_, fun h => ?_⟩
  · simp [postContactsHandler, h]
  · simp [postDealsHandler, h]
  · simp [postDealsHandler, h1, h2, h3]
  · simp [customerSummaryHandler, h]

/-- Witness for C10: an empty-string email and an absent email produce the
identical 400 response. -/
theorem C10_truthiness_validation_witness :
    postContactsHandler (.obj [("properties", .obj [("email", .str "")])])
        (.ok (.obj [])) =
      (⟨400, .obj [("error", .str "properties.email is required to create a contact")]⟩,
       []) ∧
    postContactsHandler (.obj [("properties", .obj [])]) (.ok (.obj [])) =
      (⟨400, .obj [("error", .str "properties.email is required to create a contact")]⟩,
       []) :=
  ⟨(C10_truthiness_validation (.obj [("properties", .obj [("email", .str "")])])
      (.ok (.obj [])) (.ok (.obj [])) (.ok (.obj [])) (.ok (.obj [])) (.ok (.obj []))
      (.ok (.obj [])) (fun _ => .ok (.obj []))).1 rfl,
   (C10_truthiness_validation (.obj [("properties", .obj [])])
      (.ok (.obj [])) (.ok (.obj [])) (.ok (.obj [])) (.ok (.obj [])) (.ok (.obj []))
      (.ok (.obj [])) (fun _ => .ok (.obj []))).1 rfl⟩
